import Mathlib

/-!
Verification development for the EVOLVE-O-MART catalog store.

The definitions below are a shallow embedding of `src/evolve_o_mart`
(`models.py`, `seeds.py`, `store.py`).  The async key-value backend is
modelled as an explicit state record (`StoreSt`): the products collection is
a function from keys to optional `Product` records, the metadata singleton an
optional `StoreMetadata`, and the in-process
initialization flag a boolean.  Every store operation is a pure state
transformer; operations whose Python counterpart can raise an uncaught
exception (`RuntimeError` from `get_metadata`, the Python `ValueError` from
`max()` on an empty sequence) return an `Option`, with `none` standing for
the exception.  The external LLM call `_generate_evolution` is a parameter
of type `Except String EvolutionResult` (`Except.error e` models the call
raising an exception whose `str` is `e`).  Timestamps and the random id
generator are parameters (`now`, `fresh`).
-/

namespace EvolveOMart

/-- The `Product` record (models.py). -/
structure Product where
  id : String
  name : String
  tagline : String
  description : String
  ascii_art : String
  version : Int := 1
  views : Int := 0
  parent_id : Option String := none
  created_at : String := ""
deriving DecidableEq, Inhabited

/-- The `StoreMetadata` record (models.py). -/
structure StoreMetadata where
  generation : Int
  generation_started_at : String
  last_winner_id : Option String := none
  votes_this_generation : Int := 0
  product_ids : List String
deriving DecidableEq

/-- The `EvolutionResult` record (models.py): output of the generation call. -/
structure EvolutionResult where
  new_name : String
  new_tagline : String
  new_description : String
  evolution_note : String
  new_ascii_art : String
deriving DecidableEq

/-- The `StoreState` record (models.py): aggregate view returned by `get_state`. -/
structure StoreState where
  generation : Int
  generation_started_at : String
  last_winner_id : Option String
  current_leader_id : Option String
  votes_this_generation : Int
  votes_until_evolution : Int
  votes_to_evolve : Int
  products : List Product
deriving DecidableEq

/-- The `ViewResult` record (models.py). -/
structure ViewResult where
  success : Bool := true
  product : Product
  is_leader : Bool
  message : String
deriving DecidableEq

/-- The `EvolutionResponse` record (models.py). -/
structure EvolutionResponse where
  success : Bool
  message : String
  generation : Option Int := none
  evolved_from : Option Product := none
  evolved_to : Option Product := none
  evolution_note : Option String := none
  dry_run : Bool := false
  would_evolve : Option Product := none
  not_ready : Bool := false
  votes_until_evolution : Option Int := none
  votes_to_evolve : Option Int := none
deriving DecidableEq

/-- The `EvolutionState` dataclass (store.py lines 40-48). -/
structure EvolutionState where
  metadata : StoreMetadata
  products : List Product
  winner : Option Product
  can_evolve : Bool
  votes_until_evolution : Int
deriving DecidableEq

/-- Embeds `SEED_PRODUCTS` (seeds.py), field for field.  Apostrophes inside the
text fields are written with the `\x27` escape; the `ascii_art` raw strings
are transcribed with explicit newline escapes. -/
def SEED_PRODUCTS : List Product := [
  { id := "prod_001", name := "Steam Bowl", tagline := "A bowl. With steam.",
    description := "A perfectly ordinary ceramic bowl that happens to emit a constant, gentle steam. Nobody knows why. Nobody asks.",
    ascii_art := "\n    .-~~~-.\n   /       \\\n  |  ~   ~  |\n   \\       /\n    \x27-----\x27\n   (  steam )\n    ~~~~~~~~\n        " },
  { id := "prod_002", name := "The Uncertainty Lamp", tagline := "Is it on? Is it off? Yes.",
    description := "A lamp that exists in a superposition of on and off states until you look directly at it. Then it\x27s definitely one of those. Probably.",
    ascii_art := "\n       ___\n      /   \\\n     |     |\n     |  ?  |\n      \\   /\n       | |\n      /   \\\n     /_____\\\n        " },
  { id := "prod_003", name := "Regret Pencil", tagline := "Write now, apologize later.",
    description := "Every mark this pencil makes automatically includes a tiny apology. Perfect for passive-aggressive note-leaving.",
    ascii_art := "\n           __\n          /  |\n         /   |\n        /    |\n       /  __ |\n      / /   \\|\n     /_/sorry\\\n        " },
  { id := "prod_004", name := "Motivational Brick", tagline := "You can do it. Probably.",
    description := "A brick that whispers encouragement when you hold it. The encouragement is vague and sometimes concerning.",
    ascii_art := "\n    ___________\n   /          /|\n  /  YOU GOT / |\n /   THIS   /  |\n|__________|   |\n|          |  /\n|  (maybe) | /\n|__________|/\n        " },
  { id := "prod_005", name := "Procrastination Clock", tagline := "There\x27s always tomorrow.",
    description := "A clock that\x27s perpetually 5 minutes behind schedule. Not broken—just not ready yet. Will sync up eventually. Probably.",
    ascii_art := "\n      .---.\n     /     \\\n    |  12   |\n    | 9  3  |\n    |   6   |\n     \\ ... /\n      \x27---\x27\n    (later)\n        " },
  { id := "prod_006", name := "Existential Sponge", tagline := "Absorbs liquids and meaning.",
    description := "A sponge that quietly questions its purpose while cleaning. \x27Am I removing dirt, or am I the dirt?\x27 it wonders. Still works great on dishes.",
    ascii_art := "\n    .--------.\n   /  why?   /|\n  /  ~~~~   / |\n |  o _ o  |  |\n | (     ) |  /\n |  ~~~~   | /\n |_________|/\n        " }]

/-- The backend state seen by one `Store` object: the `"products"` collection,
the metadata singleton (`"metadata"` collection, key `"metadata"`), and the
in-process `_initialized` flag of the `Store` object. -/
structure StoreSt where
  products : String → Option Product
  metadata : Option StoreMetadata
  initFlag : Bool

/-- Embeds `Store.update_product` (store.py lines 130-132): put at key `product.id`. -/
def update_product (p : Product) (s : StoreSt) : StoreSt :=
  { s with products := fun k => if k = p.id then some p else s.products k }

/-- Embeds `Store.delete_product` (store.py lines 134-136). -/
def delete_product (pid : String) (s : StoreSt) : StoreSt :=
  { s with products := fun k => if k = pid then none else s.products k }

/-- Embeds `Store.update_metadata` (store.py lines 121-123). -/
def update_metadata (m : StoreMetadata) (s : StoreSt) : StoreSt :=
  { s with metadata := some m }

/-- Embeds `Store.initialize` (store.py lines 75-99): stamp every seed with
`created_at = now`, `views = 0`, persist each one, then persist fresh
metadata.  Returns `((metadata, products), state)`. -/
def initStore (now : String) (s : StoreSt) : (StoreMetadata × List Product) × StoreSt :=
  let products := SEED_PRODUCTS.map (fun seed => { seed with created_at := now, views := 0 })
  let s1 := products.foldl (fun st p => update_product p st) s
  let metadata : StoreMetadata :=
    { generation := 1, generation_started_at := now, last_winner_id := none,
      votes_this_generation := 0, product_ids := products.map (fun p => p.id) }
  ((metadata, products), update_metadata metadata s1)

/-- Embeds `Store._ensure_initialized` (store.py lines 65-73): no-op when the flag is
set; otherwise runs `Store.initialize` exactly when the metadata singleton is
absent, then sets the flag. -/
def ensureInit (now : String) (s : StoreSt) : StoreSt :=
  if s.initFlag then s
  else
    match s.metadata with
    | none => { (initStore now s).2 with initFlag := true }
    | some _ => { s with initFlag := true }

/-- Embeds `Store.get_products` on an explicit id list (store.py lines 138-148):
resolve each id in order, silently skipping ids that do not resolve. -/
def get_products (s : StoreSt) (ids : List String) : List Product :=
  ids.filterMap s.products

/-- The Python builtin `max(xs, key=f)` as used in store.py: scans left to
right, replacing the current best only on a strictly greater key, hence
returns the first element attaining the maximum.  `none` corresponds to the
`ValueError` Python raises on an empty sequence. -/
def pyMax (f : Product → Int) : List Product → Option Product
  | [] => none
  | p :: ps => some (ps.foldl (fun a q => if f q > f a then q else a) p)

/-- Embeds `Store.get_top_product` (store.py lines 150-155), with
`get_all_product_ids`/`get_metadata` inlined; the outer `none` models the
`RuntimeError` raised when the metadata singleton is absent. -/
def get_top_product (now : String) (s : StoreSt) : Option (Option Product × StoreSt) :=
  let s1 := ensureInit now s
  match s1.metadata with
  | none => none
  | some m => some (pyMax (fun p => p.views) (get_products s1 m.product_ids), s1)

/-- Embeds `Store.get_state` (store.py lines 164-179).  `T` is the `VOTES_TO_EVOLVE`
environment constant. -/
def get_state (T : Int) (now : String) (s : StoreSt) : Option (StoreState × StoreSt) :=
  let s1 := ensureInit now s
  match s1.metadata with
  | none => none
  | some m =>
    let products := get_products s1 m.product_ids
    let leader := pyMax (fun p => p.views) products
    let votes_until := max 0 (T - m.votes_this_generation)
    some ({ generation := m.generation,
            generation_started_at := m.generation_started_at,
            last_winner_id := m.last_winner_id,
            current_leader_id := Option.map (fun l => l.id) leader,
            votes_this_generation := m.votes_this_generation,
            votes_until_evolution := votes_until,
            votes_to_evolve := T,
            products := products }, s1)

/-- Embeds `Store.mark_product_viewed` (store.py lines 181-203).  The outer `none`
models the fatal `RuntimeError` path of `get_metadata`; the inner `none` is
the absent-product signal (`return None`). -/
def mark_product_viewed (now pid : String) (s : StoreSt) :
    Option (Option ViewResult × StoreSt) :=
  let s1 := ensureInit now s
  match s1.products pid with
  | none => some (none, s1)
  | some product =>
    let product1 := { product with views := product.views + 1 }
    let s2 := update_product product1 s1
    match s2.metadata with
    | none => none
    | some metadata =>
      let metadata1 :=
        { metadata with votes_this_generation := metadata.votes_this_generation + 1 }
      let s3 := update_metadata metadata1 s2
      let leader := pyMax (fun p => p.views) (get_products s3 metadata1.product_ids)
      let is_leader : Bool := match leader with
        | some l => l.id == pid
        | none => false
      some (some { product := product1, is_leader := is_leader,
                   message := "Favorited " ++ product1.name ++ " (v" ++
                     toString product1.version ++ ") - " ++ toString product1.views ++
                     " total favorites" }, s3)

/-- Embeds `Store.check_evolution_state` (store.py lines 205-216).  The outer `none`
models the two uncaught exceptions on this path: missing metadata
(`RuntimeError`) and the Python `ValueError` from `max()` over an empty
product list. -/
def check_evolution_state (T : Int) (now : String) (s : StoreSt) :
    Option (EvolutionState × StoreSt) :=
  let s1 := ensureInit now s
  match s1.metadata with
  | none => none
  | some metadata =>
    let products := get_products s1 metadata.product_ids
    match pyMax (fun p => p.views) products with
    | none => none
    | some winner =>
      if winner.views = 0 then
        some ({ metadata := metadata, products := products, winner := none,
                can_evolve := false, votes_until_evolution := T }, s1)
      else
        let votes_until := max 0 (T - metadata.votes_this_generation)
        some ({ metadata := metadata, products := products, winner := some winner,
                can_evolve := votes_until == 0, votes_until_evolution := votes_until }, s1)

/-- Body of the view-reset loop in `Store.apply_evolution` (store.py lines
305-310): skip the winner id, skip unresolvable ids, otherwise persist the
product with `views = 0`. -/
def reset_other (wid : String) (s : StoreSt) (pid : String) : StoreSt :=
  if pid = wid then s
  else match s.products pid with
    | none => s
    | some prod => update_product { prod with views := 0 } s

/-- Embeds `Store.apply_evolution` (store.py lines 284-319).  `fresh` stands for the
value returned by `_generate_product_id()`, `now` for the timestamp.  The
outer `none` models the `RuntimeError` of `get_metadata`. -/
def apply_evolution (fresh now : String) (winner : Product)
    (evolution : EvolutionResult) (s : StoreSt) : Option (Product × StoreSt) :=
  let s1 := ensureInit now s
  match s1.metadata with
  | none => none
  | some metadata =>
    let evolved : Product :=
      { id := fresh, name := evolution.new_name, tagline := evolution.new_tagline,
        description := evolution.new_description, ascii_art := evolution.new_ascii_art,
        version := winner.version + 1, views := 0, parent_id := some winner.id,
        created_at := now }
    let s2 := update_product evolved s1
    let new_product_ids :=
      metadata.product_ids.map (fun pid => if pid = winner.id then evolved.id else pid)
    let s3 := metadata.product_ids.foldl (reset_other winner.id) s2
    let metadata1 :=
      { metadata with
        product_ids := new_product_ids,
        generation := metadata.generation + 1,
        generation_started_at := now,
        last_winner_id := some winner.id,
        votes_this_generation := 0 }
    some (evolved, update_metadata metadata1 s3)

/-- Embeds `Store.evolve` (store.py lines 218-259).  `gen` is the external
`_generate_evolution` boundary: `Except.error e` models the call raising an
exception with message `e`, `Except.ok r` a successful structured result.
The outer `none` models the uncaught exceptions of `check_evolution_state`. -/
def evolve (T : Int) (fresh now : String) (gen : Except String EvolutionResult)
    (dry_run : Bool) (s : StoreSt) : Option (EvolutionResponse × StoreSt) :=
  match check_evolution_state T now s with
  | none => none
  | some (state, s1) =>
    match state.winner with
    | none =>
      some ({ success := false, message := "No products have been favorited yet" }, s1)
    | some winner =>
      if !dry_run && !state.can_evolve then
        some ({ success := false,
                message := "Need " ++ toString state.votes_until_evolution ++
                  " more favorites to trigger evolution.",
                not_ready := true,
                votes_until_evolution := some state.votes_until_evolution,
                votes_to_evolve := some T }, s1)
      else if dry_run then
        some ({ success := true,
                message := "Would evolve " ++ winner.name ++ " (v" ++
                  toString winner.version ++ ") with " ++ toString winner.views ++
                  " favorites",
                dry_run := true, would_evolve := some winner }, s1)
      else
        match gen with
        | Except.error e => some ({ success := false, message := e }, s1)
        | Except.ok evolution =>
          match apply_evolution fresh now winner evolution s1 with
          | none => none
          | some (evolved, s2) =>
            let s3 := ensureInit now s2
            match s3.metadata with
            | none => none
            | some metadata =>
              some ({ success := true,
                      message := winner.name ++ " evolved into " ++ evolved.name ++ "!",
                      generation := some metadata.generation,
                      evolved_from := some winner, evolved_to := some evolved,
                      evolution_note := some evolution.evolution_note }, s3)

/-- Embeds `Store.reset` (store.py lines 331-337): load metadata (which ensures
initialization), delete every referenced product, clear the in-process flag,
re-run `Store.initialize`. -/
def reset (now : String) (s : StoreSt) :
    Option ((StoreMetadata × List Product) × StoreSt) :=
  let s1 := ensureInit now s
  match s1.metadata with
  | none => none
  | some metadata =>
    let s2 := metadata.product_ids.foldl (fun st pid => delete_product pid st) s1
    some (initStore now { s2 with initFlag := false })

/-- A fresh backend: no products, no metadata, flag clear. -/
def emptyStore : StoreSt :=
  { products := fun _ => none, metadata := none, initFlag := false }

/-- The backend keys written by `Store.update_product` during initialization
are exactly the seed ids: stamping does not change `id`. -/
def seedIds : List String := SEED_PRODUCTS.map (fun p => p.id)

/-- Every key of the products collection holds a record whose `id` field
equals the key.  This holds in every state the store itself writes, since
`update_product` puts at key `product.id`. -/
def KeyConsistent (s : StoreSt) : Prop :=
  ∀ k p, s.products k = some p → p.id = k

/-! ### Basic state lemmas -/

lemma update_product_products (p : Product) (s : StoreSt) (k : String) :
    (update_product p s).products k = if k = p.id then some p else s.products k := rfl

lemma update_product_metadata (p : Product) (s : StoreSt) :
    (update_product p s).metadata = s.metadata := rfl

lemma update_product_flag (p : Product) (s : StoreSt) :
    (update_product p s).initFlag = s.initFlag := rfl

lemma update_metadata_products (m : StoreMetadata) (s : StoreSt) :
    (update_metadata m s).products = s.products := rfl

lemma ensureInit_of_flag (now : String) (s : StoreSt) (h : s.initFlag = true) :
    ensureInit now s = s := by
  simp [ensureInit, h]

lemma ensureInit_of_metadata (now : String) (s : StoreSt) {m : StoreMetadata}
    (h : s.metadata = some m) : ensureInit now s = { s with initFlag := true } := by
  unfold ensureInit
  by_cases hf : s.initFlag
  · cases s
    simp_all
  · simp only [hf]
    rw [h]
    rfl

lemma ensureInit_flag (now : String) (s : StoreSt) :
    (ensureInit now s).initFlag = true := by
  unfold ensureInit
  by_cases hf : s.initFlag
  · simp [hf]
  · simp only [hf]
    cases s.metadata <;> rfl

/-- C9: `_ensure_initialized` is idempotent: a second run (at any later
timestamp) returns the state of the first run unchanged — so it neither
duplicates entries nor resets any product vote counter or the metadata. -/
theorem C9_ensure_idempotent (now now' : String) (s : StoreSt) :
    ensureInit now' (ensureInit now s) = ensureInit now s :=
  ensureInit_of_flag now' _ (ensureInit_flag now s)

/-! ### Characterization of the Python `max` (first element attaining the maximum) -/

lemma pyMax_foldl_char (f : Product → Int) (ps : List Product) : ∀ a : Product,
    (ps.foldl (fun a q => if f q > f a then q else a) a = a ∧ ∀ q ∈ ps, f q ≤ f a) ∨
    (∃ l₁ q l₂, ps = l₁ ++ q :: l₂ ∧
      ps.foldl (fun a q => if f q > f a then q else a) a = q ∧
      f a < f q ∧ (∀ x ∈ l₁, f x < f q) ∧ (∀ x ∈ l₂, f x ≤ f q)) := by
  induction ps with
  | nil => intro a; exact Or.inl ⟨rfl, by simp⟩
  | cons p ps ih =>
    intro a
    rw [List.foldl_cons]
    by_cases hp : f p > f a
    · simp only [if_pos hp]
      rcases ih p with ⟨heq, hle⟩ | ⟨l₁, q, l₂, hsplit, heq, hlt, hl₁, hl₂⟩
      · refine Or.inr ⟨[], p, ps, by simp, heq, hp, by simp, ?_⟩
        exact hle
      · refine Or.inr ⟨p :: l₁, q, l₂, by rw [hsplit]; rfl, heq, lt_trans hp hlt, ?_, hl₂⟩
        intro x hx
        rcases List.mem_cons.mp hx with hx | hx
        · exact hx ▸ hlt
        · exact hl₁ x hx
    · simp only [if_neg hp]
      push_neg at hp
      rcases ih a with ⟨heq, hle⟩ | ⟨l₁, q, l₂, hsplit, heq, hlt, hl₁, hl₂⟩
      · refine Or.inl ⟨heq, ?_⟩
        intro x hx
        rcases List.mem_cons.mp hx with hx | hx
        · exact hx ▸ hp
        · exact hle x hx
      · refine Or.inr ⟨p :: l₁, q, l₂, by rw [hsplit]; rfl, heq, hlt, ?_, hl₂⟩
        intro x hx
        rcases List.mem_cons.mp hx with hx | hx
        · exact hx ▸ lt_of_le_of_lt hp hlt
        · exact hl₁ x hx

/-- Here `pyMax f l = some m` means: `l` splits as `l₁ ++ m :: l₂` where everything
in `l₁` is strictly below `m` and everything in `l₂` is at most `m` — i.e. `m`
is the first element of `l` attaining the maximum of `f`. -/
lemma pyMax_char (f : Product → Int) (l : List Product) (m : Product)
    (h : pyMax f l = some m) :
    ∃ l₁ l₂, l = l₁ ++ m :: l₂ ∧ (∀ x ∈ l₁, f x < f m) ∧ (∀ x ∈ l₂, f x ≤ f m) := by
  cases l with
  | nil => simp [pyMax] at h
  | cons p ps =>
    simp only [pyMax, Option.some.injEq] at h
    rcases pyMax_foldl_char f ps p with ⟨heq, hle⟩ | ⟨l₁, q, l₂, hsplit, heq, hlt, hl₁, hl₂⟩
    · have hm : m = p := by rw [← h, heq]
      subst hm
      exact ⟨[], ps, by simp, by simp, hle⟩
    · rw [heq] at h
      subst h
      exact ⟨p :: l₁, l₂, by rw [hsplit]; rfl,
        by intro x hx
           rcases List.mem_cons.mp hx with hx | hx
           · exact hx ▸ hlt
           · exact hl₁ x hx,
        hl₂⟩

lemma pyMax_le (f : Product → Int) (l : List Product) (m : Product)
    (h : pyMax f l = some m) : ∀ q ∈ l, f q ≤ f m := by
  rcases pyMax_char f l m h with ⟨l₁, l₂, hsplit, hl₁, hl₂⟩
  intro q hq
  rw [hsplit] at hq
  rcases List.mem_append.mp hq with hq | hq
  · exact le_of_lt (hl₁ q hq)
  · rcases List.mem_cons.mp hq with hq | hq
    · exact hq ▸ le_refl _
    · exact hl₂ q hq

lemma pyMax_mem (f : Product → Int) (l : List Product) (m : Product)
    (h : pyMax f l = some m) : m ∈ l := by
  rcases pyMax_char f l m h with ⟨l₁, l₂, hsplit, _, _⟩
  rw [hsplit]
  exact List.mem_append.mpr (Or.inr (List.mem_cons_self _ _))

lemma pyMax_isSome (f : Product → Int) (l : List Product) (h : l ≠ []) :
    ∃ m, pyMax f l = some m := by
  cases l with
  | nil => exact absurd rfl h
  | cons p ps => exact ⟨_, rfl⟩

/-- Two "first maximum" decompositions of the same list coincide. -/
lemma firstMax_unique (f : Product → Int) (l : List Product)
    (a₁ : List Product) (p₁ : Product) (b₁ : List Product)
    (a₂ : List Product) (p₂ : Product) (b₂ : List Product)
    (h₁ : l = a₁ ++ p₁ :: b₁) (h₂ : l = a₂ ++ p₂ :: b₂)
    (hmax₁ : ∀ x ∈ l, f x ≤ f p₁) (hlt₁ : ∀ x ∈ a₁, f x < f p₁)
    (hmax₂ : ∀ x ∈ l, f x ≤ f p₂) (hlt₂ : ∀ x ∈ a₂, f x < f p₂) :
    a₁ = a₂ ∧ p₁ = p₂ := by
  have hp₁ : p₁ ∈ l := by
    rw [h₁]; exact List.mem_append.mpr (Or.inr (List.mem_cons_self _ _))
  have hp₂ : p₂ ∈ l := by
    rw [h₂]; exact List.mem_append.mpr (Or.inr (List.mem_cons_self _ _))
  have hv : f p₁ = f p₂ := le_antisymm (hmax₂ p₁ hp₁) (hmax₁ p₂ hp₂)
  have hlen : a₁.length = a₂.length := by
    rcases lt_trichotomy a₁.length a₂.length with hl | hl | hl
    · exfalso
      have e1 : l[a₁.length]? = some p₁ := by
        rw [h₁, List.getElem?_append_right (le_refl _)]
        simp
      rw [h₂, List.getElem?_append_left hl] at e1
      have : p₁ ∈ a₂ := List.getElem?_mem e1
      have := hlt₂ p₁ this
      omega
    · exact hl
    · exfalso
      have e1 : l[a₂.length]? = some p₂ := by
        rw [h₂, List.getElem?_append_right (le_refl _)]
        simp
      rw [h₁, List.getElem?_append_left hl] at e1
      have : p₂ ∈ a₁ := List.getElem?_mem e1
      have := hlt₁ p₂ this
      omega
  have := h₁ ▸ h₂
  rcases List.append_inj this hlen with ⟨ha, hb⟩
  exact ⟨ha, (List.cons.injEq _ _ _ _ ▸ hb).1⟩

/-! ### C2: the eligibility check -/

lemma get_products_setFlag (s : StoreSt) (b : Bool) (ids : List String) :
    get_products { s with initFlag := b } ids = get_products s ids := rfl

lemma check_evolution_state_eq (T : Int) (now : String) (s : StoreSt)
    (m : StoreMetadata) (hm : s.metadata = some m) :
    check_evolution_state T now s =
      match pyMax (fun p => p.views) (get_products s m.product_ids) with
      | none => none
      | some winner =>
        if winner.views = 0 then
          some ({ metadata := m, products := get_products s m.product_ids,
                  winner := none, can_evolve := false, votes_until_evolution := T },
                { s with initFlag := true })
        else
          some ({ metadata := m, products := get_products s m.product_ids,
                  winner := some winner,
                  can_evolve := max 0 (T - m.votes_this_generation) == 0,
                  votes_until_evolution := max 0 (T - m.votes_this_generation) },
                { s with initFlag := true }) := by
  unfold check_evolution_state
  rw [ensureInit_of_metadata now s hm]
  simp only [hm]
  rfl

/-- C2: on an initialized store whose catalog resolves to at least one live
product, `check_evolution_state` picks as candidate the first product
attaining the maximum vote counter; when that maximum is 0 it reports no
candidate and not-eligible regardless of the threshold; otherwise the
countdown is `max 0 (threshold - votes_this_generation)` (hence never
negative) and eligibility holds iff `votes_this_generation >= threshold`. -/
theorem C2_check_evolution_state (T : Int) (now : String) (s : StoreSt)
    (m : StoreMetadata) (hm : s.metadata = some m)
    (hne : get_products s m.product_ids ≠ []) :
    ∃ w st,
      pyMax (fun p => p.views) (get_products s m.product_ids) = some w ∧
      check_evolution_state T now s = some (st, { s with initFlag := true }) ∧
      w ∈ get_products s m.product_ids ∧
      (∀ q ∈ get_products s m.product_ids, q.views ≤ w.views) ∧
      (w.views = 0 → st.winner = none ∧ st.can_evolve = false) ∧
      (w.views ≠ 0 →
        st.winner = some w ∧
        st.votes_until_evolution = max 0 (T - m.votes_this_generation) ∧
        0 ≤ st.votes_until_evolution ∧
        (st.can_evolve = true ↔ T ≤ m.votes_this_generation)) := by
  obtain ⟨w, hw⟩ := pyMax_isSome (fun p => p.views) (get_products s m.product_ids) hne
  have heq := check_evolution_state_eq T now s m hm
  rw [hw] at heq
  by_cases hv : w.views = 0
  · simp only [hv, if_pos] at heq
    exact ⟨w, _, hw, heq, pyMax_mem _ _ _ hw, pyMax_le _ _ _ hw,
      fun _ => ⟨rfl, rfl⟩, fun hne0 => absurd hv hne0⟩
  · simp only [hv, if_neg, if_false] at heq
    refine ⟨w, _, hw, heq, pyMax_mem _ _ _ hw, pyMax_le _ _ _ hw,
      fun h0 => absurd h0 hv, fun _ => ⟨rfl, rfl, le_max_left _ _, ?_⟩⟩
    constructor
    · intro hb
      have : max 0 (T - m.votes_this_generation) = 0 := by
        simpa using hb
      omega
    · intro hle
      have : max 0 (T - m.votes_this_generation) = 0 := by omega
      simpa using this

/-- Witness for C2 on a concrete input: the freshly initialized store after
one view of `"prod_001"`, threshold 5. -/
theorem C2_check_evolution_state_witness :
    ∃ w st,
      pyMax (fun p => p.views)
        (get_products
          ((mark_product_viewed "t1" "prod_001" (initStore "t0" emptyStore).2).getD
            (none, emptyStore)).2
          ((StoreMetadata.mk 1 "t0" none 1
            ["prod_001", "prod_002", "prod_003", "prod_004", "prod_005", "prod_006"]).product_ids)) = some w ∧
      check_evolution_state 5 "t2"
          ((mark_product_viewed "t1" "prod_001" (initStore "t0" emptyStore).2).getD
            (none, emptyStore)).2 =
        some (st,
          { ((mark_product_viewed "t1" "prod_001" (initStore "t0" emptyStore).2).getD
              (none, emptyStore)).2 with initFlag := true }) ∧
      w ∈ get_products
          ((mark_product_viewed "t1" "prod_001" (initStore "t0" emptyStore).2).getD
            (none, emptyStore)).2
          ((StoreMetadata.mk 1 "t0" none 1
            ["prod_001", "prod_002", "prod_003", "prod_004", "prod_005", "prod_006"]).product_ids) ∧
      (∀ q ∈ get_products
          ((mark_product_viewed "t1" "prod_001" (initStore "t0" emptyStore).2).getD
            (none, emptyStore)).2
          ((StoreMetadata.mk 1 "t0" none 1
            ["prod_001", "prod_002", "prod_003", "prod_004", "prod_005", "prod_006"]).product_ids),
        q.views ≤ w.views) ∧
      (w.views = 0 → st.winner = none ∧ st.can_evolve = false) ∧
      (w.views ≠ 0 →
        st.winner = some w ∧
        st.votes_until_evolution =
          max 0 (5 - (StoreMetadata.mk 1 "t0" none 1
            ["prod_001", "prod_002", "prod_003", "prod_004", "prod_005", "prod_006"]).votes_this_generation) ∧
        0 ≤ st.votes_until_evolution ∧
        (st.can_evolve = true ↔ (5 : Int) ≤ (StoreMetadata.mk 1 "t0" none 1
          ["prod_001", "prod_002", "prod_003", "prod_004", "prod_005", "prod_006"]).votes_this_generation)) :=
  C2_check_evolution_state 5 "t2" _ _ (by rfl) (by decide)

/-! ### Shared concrete scenarios for witnesses and counterexamples -/

/-- The store backend right after `Store.initialize` at time `"t0"`. -/
def sInit0 : StoreSt := (initStore "t0" emptyStore).2

/-- State transformer of one `mark_product_viewed` call (result discarded). -/
def viewStep (now pid : String) (s : StoreSt) : StoreSt :=
  ((mark_product_viewed now pid s).getD (none, s)).2

/-- One view of `"prod_001"` after initialization. -/
def sView1 : StoreSt := viewStep "t1" "prod_001" sInit0

/-- An eligible store: five views of `"prod_001"` after initialization
(threshold 5 reached, leader has 5 votes). -/
def sEligible : StoreSt :=
  viewStep "t5" "prod_001" (viewStep "t4" "prod_001" (viewStep "t3" "prod_001"
    (viewStep "t2" "prod_001" sView1)))

/-- A sample structured-generation result. -/
def sampleEvolution : EvolutionResult :=
  { new_name := "Steam Bowl Ultra", new_tagline := "More bowl. More steam.",
    new_description := "Now with twice the steam.", evolution_note := "Added more steam.",
    new_ascii_art := "(steam steam)" }

/-- The first seed product as stamped by initialization at time `"t0"`. -/
def stampedSeed1 : Product :=
  { SEED_PRODUCTS.headI with created_at := "t0", views := 0 }

/-! ### Helper lemmas about `evolve` -/

lemma setFlag_eq_self (s : StoreSt) (hflag : s.initFlag = true) :
    { s with initFlag := true } = s := by
  cases s
  simp_all

lemma check_evolution_state_snd (T : Int) (now : String) (s : StoreSt)
    (st : EvolutionState) (s' : StoreSt)
    (h : check_evolution_state T now s = some (st, s')) : s' = ensureInit now s := by
  simp only [check_evolution_state] at h
  cases hm : (ensureInit now s).metadata with
  | none => rw [hm] at h; cases h
  | some m =>
    rw [hm] at h
    dsimp only at h
    cases hp : pyMax (fun p => p.views) (get_products (ensureInit now s) m.product_ids) with
    | none => rw [hp] at h; cases h
    | some w =>
      rw [hp] at h
      dsimp only at h
      by_cases hv : w.views = 0
      · simp only [hv, if_pos] at h
        exact (Prod.mk.injEq _ _ _ _ ▸ (Option.some.injEq _ _ ▸ h)).2.symm ▸ rfl
      · simp only [hv, if_neg, if_false] at h
        cases h
        rfl

/-- Unfolding `evolve` once the result of the eligibility check is known. -/
lemma evolve_eq (T : Int) (fresh now : String) (gen : Except String EvolutionResult)
    (dry_run : Bool) (s : StoreSt) (st : EvolutionState) (s1 : StoreSt)
    (hc : check_evolution_state T now s = some (st, s1)) :
    evolve T fresh now gen dry_run s =
      match st.winner with
      | none =>
        some ({ success := false, message := "No products have been favorited yet" }, s1)
      | some winner =>
        if !dry_run && !st.can_evolve then
          some ({ success := false,
                  message := "Need " ++ toString st.votes_until_evolution ++
                    " more favorites to trigger evolution.",
                  not_ready := true,
                  votes_until_evolution := some st.votes_until_evolution,
                  votes_to_evolve := some T }, s1)
        else if dry_run then
          some ({ success := true,
                  message := "Would evolve " ++ winner.name ++ " (v" ++
                    toString winner.version ++ ") with " ++ toString winner.views ++
                    " favorites",
                  dry_run := true, would_evolve := some winner }, s1)
        else
          match gen with
          | Except.error e => some ({ success := false, message := e }, s1)
          | Except.ok evolution =>
            match apply_evolution fresh now winner evolution s1 with
            | none => none
            | some (evolved, s2) =>
              let s3 := ensureInit now s2
              match s3.metadata with
              | none => none
              | some metadata =>
                some ({ success := true,
                        message := winner.name ++ " evolved into " ++ evolved.name ++ "!",
                        generation := some metadata.generation,
                        evolved_from := some winner, evolved_to := some evolved,
                        evolution_note := some evolution.evolution_note }, s3) := by
  unfold evolve
  rw [hc]

/-! ### C4: dry-run never mutates -/

/-- C4: on an initialized store (`_initialized` flag set), `evolve` with
`dry_run = true` returns the state unchanged — hence `product_ids`, the vote
counter of every product, the number of live products and all metadata fields
are untouched, regardless of eligibility. -/
theorem C4_dry_run_frame (T : Int) (fresh now : String)
    (gen : Except String EvolutionResult) (s : StoreSt) (r : EvolutionResponse)
    (s' : StoreSt) (hflag : s.initFlag = true)
    (h : evolve T fresh now gen true s = some (r, s')) : s' = s := by
  cases hc : check_evolution_state T now s with
  | none => unfold evolve at h; rw [hc] at h; cases h
  | some pr =>
    obtain ⟨st, s1⟩ := pr
    have hs1 : s1 = s := by
      rw [check_evolution_state_snd T now s st s1 hc, ensureInit_of_flag now s hflag]
    rw [evolve_eq T fresh now gen true s st s1 hc] at h
    cases hw : st.winner with
    | none =>
      rw [hw] at h
      simp only [Option.some.injEq, Prod.mk.injEq] at h
      exact h.2 ▸ hs1
    | some w =>
      rw [hw] at h
      simp only [Bool.not_true, Bool.false_and, Bool.false_eq_true, if_false,
        if_true, Option.some.injEq, Prod.mk.injEq] at h
      exact h.2 ▸ hs1

/-- Witness for C4: a dry run on the eligible concrete store changes nothing. -/
theorem C4_dry_run_frame_witness :
    sEligible.initFlag = true ∧ sEligible = sEligible :=
  ⟨by decide, C4_dry_run_frame 5 "prod_f" "t9" (Except.ok sampleEvolution) sEligible
    _ _ (by decide) rfl⟩

/-! ### C5: generation failure is caught and leaves the catalog untouched -/

/-- C5: on an initialized store with an eligible candidate, when the external
generation call raises (modelled by `Except.error e`), `evolve` returns a
failure result carrying the underlying message instead of propagating, and
the state — every product and all metadata — is exactly as before the call. -/
theorem C5_generation_failure_caught (T : Int) (fresh now e : String) (s : StoreSt)
    (m : StoreMetadata) (w : Product)
    (hflag : s.initFlag = true) (hm : s.metadata = some m)
    (hmax : pyMax (fun p => p.views) (get_products s m.product_ids) = some w)
    (hv : w.views ≠ 0) (ht : T ≤ m.votes_this_generation) :
    evolve T fresh now (Except.error e) false s =
      some ({ success := false, message := e }, s) := by
  have hset : ({ s with initFlag := true } : StoreSt) = s := setFlag_eq_self s hflag
  have hc := check_evolution_state_eq T now s m hm
  rw [hmax] at hc
  simp only [hv, if_neg, if_false] at hc
  rw [hset] at hc
  have hcan : (max 0 (T - m.votes_this_generation) == 0) = true := by
    have h0 : max 0 (T - m.votes_this_generation) = 0 := by omega
    simp [h0]
  rw [evolve_eq T fresh now (Except.error e) false s _ s hc]
  simp only [hcan]
  rfl

/-- Witness for C5: generation failure `"boom"` on the eligible concrete
store is reported, state unchanged. -/
theorem C5_generation_failure_caught_witness :
    evolve 5 "prod_f" "t9" (Except.error "boom") false sEligible =
      some ({ success := false, message := "boom" }, sEligible) :=
  C5_generation_failure_caught 5 "prod_f" "t9" "boom" sEligible _ _
    (by decide) rfl rfl (by decide) (by decide)

/-! ### C3: which failures are `NotEligible`, and what dry-run bypasses -/

/-- C3 counterexample: on the freshly initialized store (no votes cast, so
the resolved candidate is absent) a call with `dryRun = true` does NOT report
the candidate and projected outcome: it returns a plain failure with no
candidate (`would_evolve = none`, `dry_run = false`) and without the
remaining-votes count (`votes_until_evolution = none`).  This refutes the
claim that, with dryRun set, evolve reports the candidate and projected
outcome even when the candidate is absent. -/
theorem C3_counterexample :
    (evolve 5 "prod_f" "t1" (Except.ok sampleEvolution) true sInit0).map
        (fun r => (r.1.success, r.1.dry_run, r.1.would_evolve, r.1.not_ready,
          r.1.votes_until_evolution, r.1.message)) =
      some (false, false, (none : Option Product), false, (none : Option Int),
        "No products have been favorited yet") := by
  rfl

/-- C3 as amended: `evolve` (with a generation result available) fails with
`success = false` iff the candidate is absent (maximum vote counter 0) or the
threshold is not met while `dryRun` is unset.  The below-threshold failure
carries the remaining-votes count (`not_ready`, `votes_until_evolution`,
`votes_to_evolve`); the absent-candidate failure carries no remaining-votes
count and happens even when `dryRun` is set; with `dryRun` set and a
candidate present, evolve reports the candidate and projected outcome even
below threshold. -/
theorem C3_amended (T : Int) (fresh now : String) (evo : EvolutionResult)
    (dry_run : Bool) (s : StoreSt) (m : StoreMetadata) (w : Product)
    (r : EvolutionResponse) (s' : StoreSt)
    (hm : s.metadata = some m)
    (hmax : pyMax (fun p => p.views) (get_products s m.product_ids) = some w)
    (h : evolve T fresh now (Except.ok evo) dry_run s = some (r, s')) :
    (r.success = false ↔
      (w.views = 0 ∨ (dry_run = false ∧ m.votes_this_generation < T))) ∧
    (w.views = 0 →
      r.votes_until_evolution = none ∧ r.would_evolve = none ∧ r.not_ready = false ∧
      r.message = "No products have been favorited yet") ∧
    (w.views ≠ 0 → dry_run = false → m.votes_this_generation < T →
      r.not_ready = true ∧
      r.votes_until_evolution = some (max 0 (T - m.votes_this_generation)) ∧
      r.votes_to_evolve = some T) ∧
    (w.views ≠ 0 → dry_run = true →
      r.success = true ∧ r.dry_run = true ∧ r.would_evolve = some w) := by
  have hc := check_evolution_state_eq T now s m hm
  rw [hmax] at hc
  by_cases hv : w.views = 0
  · simp only [hv, if_pos] at hc
    rw [evolve_eq T fresh now (Except.ok evo) dry_run s _ _ hc] at h
    simp only [Option.some.injEq, Prod.mk.injEq] at h
    rw [← h.1]
    refine ⟨by simp [hv], fun _ => ⟨rfl, rfl, rfl, rfl⟩,
      fun h0 => absurd hv h0, fun h0 => absurd hv h0⟩
  · simp only [hv, if_neg, if_false] at hc
    rw [evolve_eq T fresh now (Except.ok evo) dry_run s _ _ hc] at h
    dsimp only at h
    cases dry_run with
    | true =>
      simp only [Bool.not_true, Bool.false_and, Bool.false_eq_true, if_false,
        if_true, Option.some.injEq, Prod.mk.injEq] at h
      rw [← h.1]
      refine ⟨by simp [hv], fun h0 => absurd h0 hv, ?_, fun _ _ => ⟨rfl, rfl, rfl⟩⟩
      intro _ hd
      cases hd
    | false =>
      by_cases ht : T ≤ m.votes_this_generation
      · have hcan : (max 0 (T - m.votes_this_generation) == 0) = true := by
          have h0 : max 0 (T - m.votes_this_generation) = 0 := by omega
          simp [h0]
        simp only [hcan, Bool.not_true, Bool.and_false, Bool.false_eq_true, if_false,
          Bool.not_false, Bool.true_and] at h
        cases happ : apply_evolution fresh now w evo { s with initFlag := true } with
        | none => rw [happ] at h; cases h
        | some pr =>
          obtain ⟨ev, s2⟩ := pr
          rw [happ] at h
          dsimp only at h
          cases hmd : (ensureInit now s2).metadata with
          | none => rw [hmd] at h; cases h
          | some md =>
            rw [hmd] at h
            simp only [Option.some.injEq, Prod.mk.injEq] at h
            rw [← h.1]
            refine ⟨by simp [hv]; omega, fun h0 => absurd h0 hv,
              fun _ _ hlt => absurd ht (by omega), ?_⟩
            intro _ hd
            cases hd
      · have hcan : (max 0 (T - m.votes_this_generation) == 0) = false := by
          have h0 : max 0 (T - m.votes_this_generation) ≠ 0 := by omega
          simpa using h0
        simp only [hcan, Bool.not_false, Bool.and_true, Bool.true_and, if_true,
          Option.some.injEq, Prod.mk.injEq] at h
        rw [← h.1]
        refine ⟨by simp [hv]; omega, fun h0 => absurd h0 hv,
          fun _ _ _ => ⟨rfl, rfl, rfl⟩, ?_⟩
        intro _ hd
        cases hd

/-- Witness for the amended statement of C3, at the freshly initialized store with
`dryRun = true` (candidate absent: all vote counters 0). -/
theorem C3_amended_witness :
    ((({ success := false, message := "No products have been favorited yet" } :
        EvolutionResponse).success = false ↔
      (stampedSeed1.views = 0 ∨ (true = false ∧ (0 : Int) < 5))) ∧
    (stampedSeed1.views = 0 →
      (none : Option Int) = none ∧ (none : Option Product) = none ∧ false = false ∧
      "No products have been favorited yet" = "No products have been favorited yet") ∧
    (stampedSeed1.views ≠ 0 → true = false → (0 : Int) < 5 →
      false = true ∧ (none : Option Int) = some (max 0 (5 - 0)) ∧
      (none : Option Int) = some 5) ∧
    (stampedSeed1.views ≠ 0 → true = true →
      false = true ∧ false = true ∧
      (none : Option Product) = some stampedSeed1)) :=
  C3_amended 5 "prod_f" "t1" sampleEvolution true sInit0 _ stampedSeed1 _ _
    rfl rfl rfl

/-! ### C1: the apply-evolution transition -/

lemma update_product_keyConsistent (p : Product) (s : StoreSt)
    (hkc : KeyConsistent s) : KeyConsistent (update_product p s) := by
  intro k q hq
  simp only [update_product] at hq
  by_cases hk : k = p.id
  · rw [if_pos hk] at hq
    cases hq
    exact hk.symm
  · rw [if_neg hk] at hq
    exact hkc k q hq

lemma reset_other_keyConsistent (wid : String) (s : StoreSt) (pid : String)
    (hkc : KeyConsistent s) : KeyConsistent (reset_other wid s pid) := by
  unfold reset_other
  by_cases hw : pid = wid
  · rw [if_pos hw]; exact hkc
  · rw [if_neg hw]
    cases hp : s.products pid with
    | none => exact hkc
    | some prod => exact update_product_keyConsistent _ _ hkc

lemma reset_other_metadata (wid : String) (s : StoreSt) (pid : String) :
    (reset_other wid s pid).metadata = s.metadata := by
  unfold reset_other
  by_cases hw : pid = wid
  · rw [if_pos hw]
  · rw [if_neg hw]
    cases s.products pid <;> rfl

lemma reset_other_products (wid : String) (s : StoreSt) (pid k : String)
    (hkc : KeyConsistent s) :
    (reset_other wid s pid).products k =
      if k = pid ∧ pid ≠ wid then (s.products pid).map (fun p => { p with views := 0 })
      else s.products k := by
  unfold reset_other
  by_cases hw : pid = wid
  · simp [hw]
  · rw [if_neg hw]
    cases hp : s.products pid with
    | none =>
      by_cases hk : k = pid
      · simp [hk, hw, hp]
      · simp [hk, hw]
    | some prod =>
      have hid : prod.id = pid := hkc pid prod hp
      by_cases hk : k = pid
      · simp [update_product, hk, hid, hw, hp]
      · simp [update_product, hk, hid, hw]

lemma viewsZero_idem (o : Option Product) :
    (o.map (fun p => { p with views := 0 })).map (fun p => { p with views := 0 }) =
      o.map (fun p => { p with views := 0 }) := by
  cases o <;> rfl

lemma resetFold_keyConsistent (wid : String) : ∀ (ids : List String) (s : StoreSt),
    KeyConsistent s → KeyConsistent (ids.foldl (reset_other wid) s) := by
  intro ids
  induction ids with
  | nil => intro s hkc; exact hkc
  | cons pid ids ih =>
    intro s hkc
    rw [List.foldl_cons]
    exact ih _ (reset_other_keyConsistent wid s pid hkc)

lemma resetFold_metadata (wid : String) : ∀ (ids : List String) (s : StoreSt),
    (ids.foldl (reset_other wid) s).metadata = s.metadata := by
  intro ids
  induction ids with
  | nil => intro s; rfl
  | cons pid ids ih =>
    intro s
    rw [List.foldl_cons, ih, reset_other_metadata]

lemma resetFold_products (wid : String) : ∀ (ids : List String) (s : StoreSt),
    KeyConsistent s → ∀ k,
    (ids.foldl (reset_other wid) s).products k =
      if k ∈ ids ∧ k ≠ wid then (s.products k).map (fun p => { p with views := 0 })
      else s.products k := by
  intro ids
  induction ids with
  | nil => intro s _ k; simp
  | cons pid ids ih =>
    intro s hkc k
    rw [List.foldl_cons]
    rw [ih _ (reset_other_keyConsistent wid s pid hkc) k]
    rw [reset_other_products wid s pid k hkc]
    by_cases hmem : k ∈ ids ∧ k ≠ wid
    · rw [if_pos hmem]
      by_cases hk : k = pid
      · have hpw : pid ≠ wid := hk ▸ hmem.2
        rw [if_pos ⟨hk, hpw⟩, ← hk, viewsZero_idem]
        rw [if_pos ⟨List.mem_cons.mpr (Or.inr hmem.1), hmem.2⟩]
      · rw [if_neg (fun hc => hk hc.1)]
        rw [if_pos ⟨List.mem_cons.mpr (Or.inr hmem.1), hmem.2⟩]
    · rw [if_neg hmem]
      by_cases hcp : k = pid ∧ pid ≠ wid
      · rw [if_pos hcp]
        have hkw : k ≠ wid := by rw [hcp.1]; exact hcp.2
        have hmem2 : k ∈ pid :: ids := by rw [hcp.1]; exact List.mem_cons_self _ _
        rw [if_pos ⟨hmem2, hkw⟩, hcp.1]
      · rw [if_neg hcp]
        have : ¬(k ∈ pid :: ids ∧ k ≠ wid) := by
          intro hc
          rcases List.mem_cons.mp hc.1 with hk | hk
          · exact hcp ⟨hk, hk ▸ hc.2⟩
          · exact hmem ⟨hk, hc.2⟩
        rw [if_neg this]

/-- C1: `apply_evolution` with winner at position `k` of `product_ids` and a
fresh id produces a new product with that id, `version = winner.version + 1`,
`views = 0`, `parent_id = winner.id`, occupying position `k` of the updated
`product_ids` (length unchanged); it resets the views of every other live product
to 0, increments `generation` by exactly 1, sets `last_winner_id` to the id
of the winner and resets `votes_this_generation` to 0. -/
theorem C1_apply_evolution (fresh now : String) (w : Product)
    (evo : EvolutionResult) (s : StoreSt) (m : StoreMetadata) (k : Nat)
    (hm : s.metadata = some m) (hkc : KeyConsistent s)
    (hk : m.product_ids[k]? = some w.id) (hfresh : fresh ∉ m.product_ids) :
    ∃ p' s', apply_evolution fresh now w evo s = some (p', s') ∧
      p'.id = fresh ∧ p'.version = w.version + 1 ∧ p'.views = 0 ∧
      p'.parent_id = some w.id ∧
      (∃ m', s'.metadata = some m' ∧
        m'.product_ids[k]? = some fresh ∧
        m'.product_ids.length = m.product_ids.length ∧
        m'.generation = m.generation + 1 ∧
        m'.last_winner_id = some w.id ∧
        m'.votes_this_generation = 0) ∧
      (∀ pid ∈ m.product_ids, pid ≠ w.id → ∀ p, s.products pid = some p →
        s'.products pid = some { p with views := 0 }) := by
  have hens := ensureInit_of_metadata now s hm
  unfold apply_evolution
  rw [hens]
  simp only [hm]
  refine ⟨_, _, rfl, rfl, rfl, rfl, rfl, ⟨_, rfl, ?_, ?_, rfl, rfl, rfl⟩, ?_⟩
  · rw [List.getElem?_map, hk]
    simp
  · exact List.length_map _ _
  · intro pid hpid hpw p hp
    have hkc1 : KeyConsistent
        ({ products := s.products, metadata := some m, initFlag := true } : StoreSt) := hkc
    have hkc2 : KeyConsistent
        (update_product
          { id := fresh, name := evo.new_name, tagline := evo.new_tagline,
            description := evo.new_description, ascii_art := evo.new_ascii_art,
            version := w.version + 1, views := 0, parent_id := some w.id,
            created_at := now }
          { products := s.products, metadata := some m, initFlag := true }) :=
      update_product_keyConsistent _ _ hkc1
    change (List.foldl (reset_other w.id)
        (update_product
          { id := fresh, name := evo.new_name, tagline := evo.new_tagline,
            description := evo.new_description, ascii_art := evo.new_ascii_art,
            version := w.version + 1, views := 0, parent_id := some w.id,
            created_at := now }
          { products := s.products, metadata := some m, initFlag := true })
        m.product_ids).products pid = some { p with views := 0 }
    rw [resetFold_products w.id m.product_ids _ hkc2 pid, if_pos ⟨hpid, hpw⟩]
    have hne : pid ≠ fresh := fun hc => hfresh (hc ▸ hpid)
    rw [update_product_products]
    dsimp only
    rw [if_neg hne]
    show (s.products pid).map _ = _
    rw [hp]
    rfl

/-- The concretely initialized store is key-consistent: every key holds the
record whose `id` is that key. -/
lemma sInit0_keyConsistent : KeyConsistent sInit0 := by
  intro k p h
  simp only [sInit0, initStore, update_metadata, update_product, emptyStore,
    SEED_PRODUCTS, List.map_cons, List.map_nil, List.foldl_cons, List.foldl_nil] at h
  split_ifs at h with h1 h2 h3 h4 h5 h6
  · cases h; exact h1.symm
  · cases h; exact h2.symm
  · cases h; exact h3.symm
  · cases h; exact h4.symm
  · cases h; exact h5.symm
  · cases h; exact h6.symm

/-- Witness for C1 at a concrete input: evolving the first seed product in
the freshly initialized store, with fresh id `"prod_f"`. -/
theorem C1_apply_evolution_witness :
    ∃ p' s', apply_evolution "prod_f" "tE" stampedSeed1 sampleEvolution sInit0 =
        some (p', s') ∧
      p'.id = "prod_f" ∧ p'.version = stampedSeed1.version + 1 ∧ p'.views = 0 ∧
      p'.parent_id = some stampedSeed1.id ∧
      (∃ m', s'.metadata = some m' ∧
        m'.product_ids[0]? = some "prod_f" ∧
        m'.product_ids.length =
          (["prod_001", "prod_002", "prod_003", "prod_004", "prod_005",
            "prod_006"] : List String).length ∧
        m'.generation = (1 : Int) + 1 ∧
        m'.last_winner_id = some stampedSeed1.id ∧
        m'.votes_this_generation = 0) ∧
      (∀ pid ∈ (["prod_001", "prod_002", "prod_003", "prod_004", "prod_005",
          "prod_006"] : List String), pid ≠ stampedSeed1.id →
        ∀ p, sInit0.products pid = some p →
          s'.products pid = some { p with views := 0 }) :=
  C1_apply_evolution "prod_f" "tE" stampedSeed1 sampleEvolution sInit0 _ 0
    rfl sInit0_keyConsistent (by decide) (by decide)

/-! ### C6: viewing a product -/

/-- The product with id `pid` is the earliest product in the list attaining
the maximum vote counter: the list splits as `l₁ ++ p :: l₂` with `p.id = pid`,
`p` maximal, and everything before `p` strictly below it. -/
def earliestMaxWithId (l : List Product) (pid : String) : Prop :=
  ∃ l₁ p l₂, l = l₁ ++ p :: l₂ ∧ p.id = pid ∧
    (∀ q ∈ l, q.views ≤ p.views) ∧ (∀ q ∈ l₁, q.views < p.views)

lemma pyMax_eq_none (f : Product → Int) (l : List Product)
    (h : pyMax f l = none) : l = [] := by
  cases l with
  | nil => rfl
  | cons p ps => simp [pyMax] at h

lemma isLeader_iff (l : List Product) (pid : String) (w : Product)
    (hp : pyMax (fun p => p.views) l = some w) :
    w.id = pid ↔ earliestMaxWithId l pid := by
  obtain ⟨l₁, l₂, hsplit, hlt, hle⟩ := pyMax_char (fun p => p.views) l w hp
  constructor
  · intro hid
    exact ⟨l₁, w, l₂, hsplit, hid, pyMax_le _ _ _ hp, hlt⟩
  · rintro ⟨a, p, b, hsplit2, hid, hmax, hstrict⟩
    have := firstMax_unique (fun p => p.views) l l₁ w l₂ a p b hsplit hsplit2
      (pyMax_le _ _ _ hp) hlt hmax hstrict
    rw [this.2]
    exact hid

lemma foldl_update_keyConsistent : ∀ (ps : List Product) (s : StoreSt),
    KeyConsistent s → KeyConsistent (ps.foldl (fun st p => update_product p st) s) := by
  intro ps
  induction ps with
  | nil => intro s hkc; exact hkc
  | cons p ps ih =>
    intro s hkc
    rw [List.foldl_cons]
    exact ih _ (update_product_keyConsistent p s hkc)

lemma initStore_keyConsistent (now : String) (s : StoreSt) (hkc : KeyConsistent s) :
    KeyConsistent (initStore now s).2 := by
  intro k p h
  have h' : (List.foldl (fun st q => update_product q st) s
      (SEED_PRODUCTS.map
        (fun seed => ({ seed with created_at := now, views := 0 } : Product)))).products k =
      some p := h
  exact foldl_update_keyConsistent _ s hkc k p h'

lemma ensureInit_keyConsistent (now : String) (s : StoreSt) (hkc : KeyConsistent s) :
    KeyConsistent (ensureInit now s) := by
  unfold ensureInit
  by_cases hf : s.initFlag
  · simp only [hf, if_true]
    exact hkc
  · simp only [hf, if_false]
    cases s.metadata with
    | none => exact initStore_keyConsistent now s hkc
    | some m => exact hkc

lemma viewStep_keyConsistent (now pid : String) (s : StoreSt)
    (hkc : KeyConsistent s) : KeyConsistent (viewStep now pid s) := by
  have hkc1 : KeyConsistent (ensureInit now s) := ensureInit_keyConsistent now s hkc
  unfold viewStep mark_product_viewed
  cases hp : (ensureInit now s).products pid with
  | none =>
    simp only [hp]
    exact hkc1
  | some p =>
    simp only [hp]
    cases hm2 : (update_product { p with views := p.views + 1 } (ensureInit now s)).metadata with
    | none =>
      simp only [hm2]
      exact hkc
    | some m =>
      simp only [hm2]
      exact update_product_keyConsistent _ _ hkc1

/-- C6 counterexample: after one view of `"prod_001"`, viewing `"prod_002"`
yields a product that attains the maximum vote counter across the catalog
(1 view, tied with `"prod_001"`), yet the returned leader flag is `false`.
This refutes the claim that "flag is true iff the product holds the maximum
vote counter". -/
theorem C6_counterexample :
    ∃ r s', mark_product_viewed "t2" "prod_002" sView1 = some (some r, s') ∧
      r.is_leader = false ∧ r.product.views = 1 ∧
      (∀ q ∈ get_products s'
          ["prod_001", "prod_002", "prod_003", "prod_004", "prod_005", "prod_006"],
        q.views ≤ r.product.views) := by
  refine ⟨_, _, rfl, rfl, rfl, ?_⟩
  decide

/-- C6 as amended: `mark_product_viewed` returns the absent signal without
change when the id does not resolve; otherwise it increments the vote counter of
exactly that product and the `votes_this_generation` of the metadata by 1,
persists both, and returns the updated product with a flag that is true iff
the product is the EARLIEST product in catalog order among those attaining
the maximum vote counter (ties are broken toward the earlier position, so a
tying product later in order gets `false`). -/
theorem C6_mark_product_viewed (now pid : String) (s : StoreSt) (m : StoreMetadata)
    (hflag : s.initFlag = true) (hm : s.metadata = some m)
    (hkc : KeyConsistent s) :
    (s.products pid = none → mark_product_viewed now pid s = some (none, s)) ∧
    (∀ p, s.products pid = some p →
      ∃ r s', mark_product_viewed now pid s = some (some r, s') ∧
        r.product = { p with views := p.views + 1 } ∧
        s'.products pid = some { p with views := p.views + 1 } ∧
        (∀ k, k ≠ pid → s'.products k = s.products k) ∧
        s'.metadata = some
          { m with votes_this_generation := m.votes_this_generation + 1 } ∧
        (r.is_leader = true ↔
          earliestMaxWithId (get_products s' m.product_ids) pid)) := by
  have hens := ensureInit_of_flag now s hflag
  constructor
  · intro hnone
    unfold mark_product_viewed
    rw [hens]
    simp only [hnone]
  · intro p hp
    have hid : p.id = pid := hkc pid p hp
    unfold mark_product_viewed
    rw [hens]
    simp only [hp]
    rw [update_product_metadata, hm]
    dsimp only
    refine ⟨_, _, rfl, rfl, ?_, ?_, rfl, ?_⟩
    · show (update_product { p with views := p.views + 1 } s).products pid = _
      rw [update_product_products]
      dsimp only
      rw [if_pos hid.symm]
    · intro k hk
      show (update_product { p with views := p.views + 1 } s).products k = _
      rw [update_product_products]
      dsimp only
      rw [if_neg (hid ▸ hk)]
    · dsimp only
      cases hpm : pyMax (fun q => q.views)
          (get_products
            (update_metadata
              { m with votes_this_generation := m.votes_this_generation + 1 }
              (update_product { p with views := p.views + 1 } s)) m.product_ids) with
      | none =>
        dsimp only
        simp only [Bool.false_eq_true, false_iff]
        intro hcon
        obtain ⟨l₁, q, l₂, hsplit, _⟩ := hcon
        rw [pyMax_eq_none _ _ hpm] at hsplit
        exact List.cons_ne_nil _ _ (List.append_eq_nil.mp hsplit.symm).2
      | some w =>
        dsimp only
        rw [show (w.id == pid) = true ↔ w.id = pid from beq_iff_eq]
        exact isLeader_iff _ pid w hpm

/-- Witness for the amended statement of C6: viewing `"prod_001"` a second time on
the concrete store where it already leads. -/
theorem C6_mark_product_viewed_witness :
    (sView1.products "prod_001" = none →
      mark_product_viewed "t2" "prod_001" sView1 = some (none, sView1)) ∧
    (∀ p, sView1.products "prod_001" = some p →
      ∃ r s', mark_product_viewed "t2" "prod_001" sView1 = some (some r, s') ∧
        r.product = { p with views := p.views + 1 } ∧
        s'.products "prod_001" = some { p with views := p.views + 1 } ∧
        (∀ k, k ≠ "prod_001" → s'.products k = sView1.products k) ∧
        s'.metadata = some
          { StoreMetadata.mk 1 "t0" none 1
              ["prod_001", "prod_002", "prod_003", "prod_004", "prod_005",
                "prod_006"] with
            votes_this_generation := 1 + 1 } ∧
        (r.is_leader = true ↔
          earliestMaxWithId
            (get_products s'
              ["prod_001", "prod_002", "prod_003", "prod_004", "prod_005",
                "prod_006"]) "prod_001")) :=
  C6_mark_product_viewed "t2" "prod_001" sView1 _ (by decide) rfl
    (viewStep_keyConsistent "t1" "prod_001" sInit0 sInit0_keyConsistent)

/-! ### C10: deterministic tie-breaking in leader selection -/

lemma filterMap_split (f : String → Option Product) :
    ∀ (ids : List String) (A : List Product) (b : Product) (B : List Product),
    ids.filterMap f = A ++ b :: B →
    ∃ i₁ k i₂, ids = i₁ ++ k :: i₂ ∧ f k = some b ∧
      i₁.filterMap f = A ∧ i₂.filterMap f = B := by
  intro ids
  induction ids with
  | nil =>
    intro A b B h
    simp only [List.filterMap_nil] at h
    exact absurd h.symm (List.append_ne_nil_of_right_ne_nil _ (List.cons_ne_nil _ _))
  | cons a ids ih =>
    intro A b B h
    rw [List.filterMap_cons] at h
    cases hfa : f a with
    | none =>
      rw [hfa] at h
      obtain ⟨i₁, k, i₂, h1, h2, h3, h4⟩ := ih A b B h
      refine ⟨a :: i₁, k, i₂, by rw [h1]; rfl, h2, ?_, h4⟩
      rw [List.filterMap_cons, hfa, h3]
    | some p =>
      rw [hfa] at h
      cases A with
      | nil =>
        simp only [List.nil_append, List.cons.injEq] at h
        exact ⟨[], a, ids, rfl, by rw [hfa, h.1], rfl, h.2⟩
      | cons q A =>
        simp only [List.cons_append, List.cons.injEq] at h
        obtain ⟨i₁, k, i₂, h1, h2, h3, h4⟩ := ih A b B h.2
        refine ⟨a :: i₁, k, i₂, by rw [h1]; rfl, h2, ?_, h4⟩
        rw [List.filterMap_cons, hfa, h3, h.1]

/-- C10: when two or more live products tie for the maximum vote counter,
`get_top_product` deterministically returns the product whose id appears
earliest in `metadata.product_ids` order (everything resolving before that id
has strictly fewer views), and `get_state` reports that same id as
`current_leader_id`. -/
theorem C10_leader_tie_earliest (T : Int) (now now2 : String) (s : StoreSt)
    (m : StoreMetadata) (hflag : s.initFlag = true) (hm : s.metadata = some m)
    (hkc : KeyConsistent s)
    (htie : ∃ p ∈ get_products s m.product_ids, ∃ q ∈ get_products s m.product_ids,
      p ≠ q ∧ p.views = q.views ∧
      ∀ r ∈ get_products s m.product_ids, r.views ≤ p.views) :
    ∃ l i₁ i₂, get_top_product now s = some (some l, s) ∧
      m.product_ids = i₁ ++ l.id :: i₂ ∧
      s.products l.id = some l ∧
      (∀ q ∈ i₁.filterMap s.products, q.views < l.views) ∧
      (∀ q ∈ get_products s m.product_ids, q.views ≤ l.views) ∧
      (∃ st, get_state T now2 s = some (st, s) ∧
        st.current_leader_id = some l.id) := by
  have hens : ensureInit now s = s := ensureInit_of_flag now s hflag
  have hens2 : ensureInit now2 s = s := ensureInit_of_flag now2 s hflag
  have hne : get_products s m.product_ids ≠ [] := by
    obtain ⟨p, hp, _⟩ := htie
    intro hc
    rw [hc] at hp
    cases hp
  obtain ⟨l, hl⟩ := pyMax_isSome (fun p => p.views) (get_products s m.product_ids) hne
  obtain ⟨L₁, L₂, hsplit, hlt, _⟩ := pyMax_char (fun p => p.views) _ l hl
  obtain ⟨i₁, k, i₂, hi, hk, hL₁, _⟩ := filterMap_split s.products m.product_ids L₁ l L₂ hsplit
  have hkid : l.id = k := hkc k l hk
  refine ⟨l, i₁, i₂, ?_, by rw [hi, hkid], by rw [hkid]; exact hk,
    by rw [hL₁]; exact hlt, pyMax_le _ _ _ hl, ?_⟩
  · unfold get_top_product
    rw [hens]
    simp only [hm, hl]
  · refine ⟨{ generation := m.generation,
              generation_started_at := m.generation_started_at,
              last_winner_id := m.last_winner_id,
              current_leader_id := Option.map (fun p => p.id)
                (pyMax (fun p => p.views) (get_products s m.product_ids)),
              votes_this_generation := m.votes_this_generation,
              votes_until_evolution := max 0 (T - m.votes_this_generation),
              votes_to_evolve := T,
              products := get_products s m.product_ids }, ?_, ?_⟩
    · unfold get_state
      rw [hens2]
      simp only [hm]
    · rw [hl]
      rfl

/-- A two-way tie at the maximum: one view each of `"prod_001"` and
`"prod_002"`. -/
def sTie : StoreSt := viewStep "t2" "prod_002" sView1

/-- Witness for C10 at the concrete tie store (both leading products have one
view; the earlier one must win). -/
theorem C10_leader_tie_earliest_witness :
    ∃ l i₁ i₂, get_top_product "t9" sTie = some (some l, sTie) ∧
      (["prod_001", "prod_002", "prod_003", "prod_004", "prod_005",
        "prod_006"] : List String) = i₁ ++ l.id :: i₂ ∧
      sTie.products l.id = some l ∧
      (∀ q ∈ i₁.filterMap sTie.products, q.views < l.views) ∧
      (∀ q ∈ get_products sTie
          ["prod_001", "prod_002", "prod_003", "prod_004", "prod_005", "prod_006"],
        q.views ≤ l.views) ∧
      (∃ st, get_state 5 "t9b" sTie = some (st, sTie) ∧
        st.current_leader_id = some l.id) :=
  C10_leader_tie_earliest 5 "t9" "t9b" sTie _ (by decide) rfl
    (viewStep_keyConsistent "t2" "prod_002" sView1
      (viewStep_keyConsistent "t1" "prod_001" sInit0 sInit0_keyConsistent))
    (by decide)

/-! ### C8: reset completeness -/

/-- C8: after `reset`, the live catalog equals the freshly stamped seed list:
the number of live products equals the number of seed products, the vote counter of every live
product is 0, and the new metadata has `generation = 1`,
`votes_this_generation = 0` and `last_winner_id = null`. -/
theorem C8_reset_completeness (now : String) (s : StoreSt) (m : StoreMetadata)
    (hm : s.metadata = some m) :
    ∃ md prods s', reset now s = some ((md, prods), s') ∧
      prods.length = SEED_PRODUCTS.length ∧
      (∀ p ∈ prods, p.views = 0) ∧
      md.generation = 1 ∧ md.votes_this_generation = 0 ∧ md.last_winner_id = none ∧
      s'.metadata = some md ∧
      get_products s' md.product_ids = prods := by
  unfold reset
  rw [ensureInit_of_metadata now s hm]
  simp only [hm]
  refine ⟨_, _, _, rfl, List.length_map _ _, ?_, rfl, rfl, rfl, rfl, ?_⟩
  · intro p hp
    obtain ⟨q, _, rfl⟩ := List.mem_map.mp hp
    rfl
  · rfl

/-- Witness for C8 on the concrete initialized store. -/
theorem C8_reset_completeness_witness :
    ∃ md prods s', reset "t10" sInit0 = some ((md, prods), s') ∧
      prods.length = SEED_PRODUCTS.length ∧
      (∀ p ∈ prods, p.views = 0) ∧
      md.generation = 1 ∧ md.votes_this_generation = 0 ∧ md.last_winner_id = none ∧
      s'.metadata = some md ∧
      get_products s' md.product_ids = prods :=
  C8_reset_completeness "t10" sInit0 _ rfl

/-! ### C7: what reset leaves alone -/

/-- The concrete store after one full evolution cycle: five views of
`"prod_001"`, then a successful evolve with fresh id `"prod_f"` — leaving the
old `"prod_001"` record orphaned (persisted but unreferenced). -/
def sEvolved : StoreSt :=
  ((evolve 5 "prod_f" "t9" (Except.ok sampleEvolution) false sEligible).getD
    ({ success := false, message := "" }, emptyStore)).2

/-- C7 counterexample: in the evolution-reachable store `sEvolved`,
`"prod_001"` is orphaned (not referenced by metadata) with 5 recorded views,
yet `reset` does NOT leave it unchanged: re-seeding overwrites the orphan
with a fresh seed record (0 views). -/
theorem C7_counterexample :
    ∃ md prods s', reset "t10" sEvolved = some ((md, prods), s') ∧
      (∃ m, sEvolved.metadata = some m ∧ "prod_001" ∉ m.product_ids) ∧
      (sEvolved.products "prod_001").map (fun p => p.views) = some 5 ∧
      (s'.products "prod_001").map (fun p => p.views) = some 0 ∧
      s'.products "prod_001" ≠ sEvolved.products "prod_001" := by
  refine ⟨_, _, _, rfl, ⟨_, rfl, by decide⟩, by decide, by decide, by decide⟩

lemma foldl_update_products_other : ∀ (ps : List Product) (t : StoreSt) (k : String),
    k ∉ ps.map (fun p => p.id) →
    (ps.foldl (fun st p => update_product p st) t).products k = t.products k := by
  intro ps
  induction ps with
  | nil => intro t k _; rfl
  | cons p ps ih =>
    intro t k hk
    rw [List.map_cons] at hk
    rw [List.foldl_cons, ih _ k (fun hc => hk (List.mem_cons.mpr (Or.inr hc)))]
    rw [update_product_products,
      if_neg (fun hc => hk (List.mem_cons.mpr (Or.inl hc)))]

lemma foldl_delete_products : ∀ (ids : List String) (t : StoreSt) (k : String),
    (ids.foldl (fun st pid => delete_product pid st) t).products k =
      if k ∈ ids then none else t.products k := by
  intro ids
  induction ids with
  | nil => intro t k; simp
  | cons pid ids ih =>
    intro t k
    rw [List.foldl_cons, ih]
    by_cases hmem : k ∈ ids
    · rw [if_pos hmem, if_pos (List.mem_cons.mpr (Or.inr hmem))]
    · rw [if_neg hmem]
      by_cases hk : k = pid
      · show (if k = pid then none else t.products k) = _
        rw [if_pos hk, if_pos (List.mem_cons.mpr (Or.inl hk))]
      · show (if k = pid then none else t.products k) = _
        rw [if_neg hk]
        rw [if_neg (fun hc => by
          rcases List.mem_cons.mp hc with h | h
          · exact hk h
          · exact hmem h)]

/-- C7 as amended: `reset` deletes every entry referenced by the current
metadata and re-seeds.  An orphaned (unreferenced) entry whose key is not a
seed id is left unchanged in the backend; a referenced entry whose key is not
a seed id is gone afterwards; and every seed key — including any orphan that
still sits at a seed key — is overwritten with a freshly stamped seed. -/
theorem C7_amended (now : String) (s : StoreSt) (m : StoreMetadata)
    (hm : s.metadata = some m) :
    ∃ r s', reset now s = some (r, s') ∧
      (∀ k, k ∉ m.product_ids → k ∉ seedIds → s'.products k = s.products k) ∧
      (∀ k ∈ m.product_ids, k ∉ seedIds → s'.products k = none) ∧
      (∀ k ∈ seedIds, ∃ q ∈ SEED_PRODUCTS, q.id = k ∧
        s'.products k = some { q with created_at := now, views := 0 }) := by
  unfold reset
  rw [ensureInit_of_metadata now s hm]
  simp only [hm]
  refine ⟨_, _, rfl, ?_, ?_, ?_⟩
  · intro k hk hks
    have hk' : k ∉ (SEED_PRODUCTS.map
        (fun seed => ({ seed with created_at := now, views := 0 } : Product))).map
          (fun p => p.id) := by
      intro hc
      apply hks
      obtain ⟨q, hq, hqid⟩ := List.mem_map.mp hc
      obtain ⟨q0, hq0, rfl⟩ := List.mem_map.mp hq
      exact hqid ▸ List.mem_map.mpr ⟨q0, hq0, rfl⟩
    rw [update_metadata_products, foldl_update_products_other _ _ k hk']
    dsimp only
    rw [foldl_delete_products, if_neg hk]
  · intro k hk hks
    have hk' : k ∉ (SEED_PRODUCTS.map
        (fun seed => ({ seed with created_at := now, views := 0 } : Product))).map
          (fun p => p.id) := by
      intro hc
      apply hks
      obtain ⟨q, hq, hqid⟩ := List.mem_map.mp hc
      obtain ⟨q0, hq0, rfl⟩ := List.mem_map.mp hq
      exact hqid ▸ List.mem_map.mpr ⟨q0, hq0, rfl⟩
    rw [update_metadata_products, foldl_update_products_other _ _ k hk']
    dsimp only
    rw [foldl_delete_products, if_pos hk]
  · intro k hk
    simp only [seedIds, SEED_PRODUCTS, List.map_cons, List.map_nil] at hk
    fin_cases hk
    · exact ⟨SEED_PRODUCTS.get ⟨0, by decide⟩, List.get_mem _ _ _, rfl, rfl⟩
    · exact ⟨SEED_PRODUCTS.get ⟨1, by decide⟩, List.get_mem _ _ _, rfl, rfl⟩
    · exact ⟨SEED_PRODUCTS.get ⟨2, by decide⟩, List.get_mem _ _ _, rfl, rfl⟩
    · exact ⟨SEED_PRODUCTS.get ⟨3, by decide⟩, List.get_mem _ _ _, rfl, rfl⟩
    · exact ⟨SEED_PRODUCTS.get ⟨4, by decide⟩, List.get_mem _ _ _, rfl, rfl⟩
    · exact ⟨SEED_PRODUCTS.get ⟨5, by decide⟩, List.get_mem _ _ _, rfl, rfl⟩

/-- Witness for the amended statement of C7, at the concrete evolved store. -/
theorem C7_amended_witness :
    ∃ r s', reset "t10" sEvolved = some (r, s') ∧
      (∀ k, k ∉ ["prod_f", "prod_002", "prod_003", "prod_004", "prod_005",
          "prod_006"] → k ∉ seedIds → s'.products k = sEvolved.products k) ∧
      (∀ k ∈ (["prod_f", "prod_002", "prod_003", "prod_004", "prod_005",
          "prod_006"] : List String), k ∉ seedIds → s'.products k = none) ∧
      (∀ k ∈ seedIds, ∃ q ∈ SEED_PRODUCTS, q.id = k ∧
        s'.products k = some { q with created_at := "t10", views := 0 }) :=
  C7_amended "t10" sEvolved _ rfl

end EvolveOMart
